import Mathlib

/-!
Shallow embedding of `src/apns/apns.cpp` (an Apple Push Notification Service
client).  Byte buffers are `List Nat` with entries below 256; C strings are
`List Char` (no interior NUL bytes, which a `std::string` passed through
`c_str()` would cut off anyway).  The host is modelled as little-endian
(x86-64), which is where `htonl`/`htons`/`ntohl` byte-swap; this matters for
the fields the code stores or reads without, or with a mismatched, byte-order
conversion.
-/

namespace Apns

/-- Little-endian layout of a 32-bit value in memory, as `memcpy` of a
`uint32_t` produces on the modelled host. -/
def le32 (n : Nat) : List Nat :=
  [n % 256, n / 256 % 256, n / 65536 % 256, n / 16777216 % 256]

/-- Big-endian (network order) layout of a 32-bit value, as `memcpy` of an
`htonl` result produces. -/
def be32 (n : Nat) : List Nat :=
  [n / 16777216 % 256, n / 65536 % 256, n / 256 % 256, n % 256]

/-- Big-endian (network order) layout of a 16-bit value, as `memcpy` of an
`htons` result produces. -/
def be16 (n : Nat) : List Nat :=
  [n / 256 % 256, n % 256]

/-- 32-bit byte swap: what `ntohl` does to a `uint32_t` value on the
little-endian host. -/
def bswap32 (n : Nat) : Nat :=
  n % 256 * 16777216 + n / 256 % 256 * 65536 + n / 65536 % 256 * 256 + n / 16777216 % 256

/-- Value of a `uint32_t` filled by `memcpy` from a byte buffer on the
little-endian host. -/
def readLE32 (b : List Nat) : Nat :=
  b.getD 0 0 + 256 * b.getD 1 0 + 65536 * b.getD 2 0 + 16777216 * b.getD 3 0

/-- Value of a `uint16_t` filled by `memcpy` from a byte buffer on the
little-endian host. -/
def readLE16 (b : List Nat) : Nat :=
  b.getD 0 0 + 256 * b.getD 1 0

/-- A byte read through a (signed) `char` and promoted to `int`, as the
varargs call `snprintf(ch, 2, "%x", buf[i])` sees it, reinterpreted as the
unsigned 32-bit value that `%x` prints: bytes with the high bit set become
`0xFFFFFF00 + v`. -/
def signedPromote (v : Nat) : Nat :=
  if v < 128 then v else 4294967040 + v

/-- The characters `Apns::Hex2Str` appends for one byte: `%x` of the
sign-extended byte, truncated by `snprintf` with a 2-byte buffer to a single
character (one hex digit plus the terminating NUL). -/
def hex2StrByte (v : Nat) : List Char :=
  (Nat.toDigits 16 (signedPromote v)).take 1

/-- `Apns::Hex2Str(buf, len)`: per-byte `%x` rendering into a 2-byte buffer,
concatenated. -/
def hex2Str (bytes : List Nat) : List Char :=
  bytes.flatMap hex2StrByte

/-- Characters accepted by `sscanf` with `%x`. -/
def isHexDigit (c : Char) : Bool :=
  (decide (48 ≤ c.toNat) && decide (c.toNat ≤ 57)) ||
  (decide (97 ≤ c.toNat) && decide (c.toNat ≤ 102)) ||
  (decide (65 ≤ c.toNat) && decide (c.toNat ≤ 70))

/-- Numeric value of a hex digit character (0 for anything else). -/
def hexDigitVal (c : Char) : Nat :=
  if 48 ≤ c.toNat ∧ c.toNat ≤ 57 then c.toNat - 48
  else if 97 ≤ c.toNat ∧ c.toNat ≤ 102 then c.toNat - 87
  else if 65 ≤ c.toNat ∧ c.toNat ≤ 70 then c.toNat - 55
  else 0

/-- `sscanf(tmp, "%x", &ch)` on the two-character buffer `tmp`: parses the
hex digits present, `none` when the first character is not a hex digit (the
scan then fails and `ch` keeps its previous value). -/
def scanHex2 (c1 c2 : Char) : Option Nat :=
  if isHexDigit c1 then
    some (if isHexDigit c2 then 16 * hexDigitVal c1 + hexDigitVal c2 else hexDigitVal c1)
  else none

/-- The loop of `Apns::Str2Hex`: consumes two input characters per output
byte while input remains and the buffer capacity `szLen` is not exhausted.
`ch` carries the current value of the C variable `ch` (uninitialised at the
first call, hence a parameter), which is written unchanged when `sscanf`
fails.  A sole trailing character is paired with the string's terminating
NUL; the model stops there (continuing, as the C code does, reads past the
end of the string, which is undefined behaviour). -/
def str2HexLoop : List Char → Nat → Nat → List Nat
  | [], _, _ => []
  | _ :: _, 0, _ => []
  | [c1], Nat.succ _, ch => [(scanHex2 c1 (Char.ofNat 0)).getD ch]
  | c1 :: c2 :: rest, Nat.succ n, ch =>
    let v := (scanHex2 c1 c2).getD ch
    v :: str2HexLoop rest n v

/-- `Apns::Str2Hex(str, buf, szLen)`: the buffer is zeroed by `memset`, then
the loop overwrites a prefix of it. -/
def str2Hex (s : List Char) (szLen : Nat) (ch0 : Nat) : List Nat :=
  let w := str2HexLoop s szLen ch0
  w ++ List.replicate (szLen - w.length) 0

/-- Opening piece of the `Apns::ConstructAps` format string. -/
def apsHead : List Char := "\x7b\"aps\": \x7b\"alert\": \"".data

/-- Piece of the format string between the body and the badge. -/
def apsMid1 : List Char := "\",\"badge\": ".data

/-- Piece of the format string between the badge and the sound. -/
def apsMid2 : List Char := ",\"sound\": \"".data

/-- Closing piece of the format string. -/
def apsTail : List Char := "\"\x7d\x7d".data

/-- The full substitution `snprintf` would format given unlimited space:
the fixed template with body, badge (`%d`) and sound spliced in. -/
def apsFull (body : List Char) (badge : Int) (sound : List Char) : List Char :=
  apsHead ++ body ++ apsMid1 ++ (toString badge).data ++ apsMid2 ++ sound ++ apsTail

/-- `Apns::ConstructAps`: `snprintf` into a 256-byte stack buffer keeps at
most 255 characters plus the terminating NUL. -/
def constructAps (body : List Char) (badge : Int) (sound : List Char) : List Char :=
  (apsFull body badge sound).take 255

/-- The frame `Apns::PushMessage` assembles in `buf` before `SSL_write`:
`command` (1) `id` (`time(NULL)` truncated to `uint32_t`, stored WITHOUT
`htonl`, hence little-endian on the modelled host) `expiry` (`htonl(id +
86400)`) `tokenlen` (`htons(32)`) `token` (`Str2Hex` into the 32-byte
buffer) `payloadlen` (`htons` of the payload length) `payload`.  `now` is
the value of `time(NULL)` and `ch0` the uninitialised `ch` inside
`Str2Hex`. -/
def pushFrame (now ch0 : Nat) (deviceToken body : List Char) (badge : Int)
    (sound : List Char) : List Nat :=
  let token := str2Hex deviceToken 32 ch0
  let id := now % 4294967296
  let expiry := (id + 86400) % 4294967296
  let aps := constructAps body badge sound
  [1] ++ le32 id ++ be32 expiry ++ be16 32 ++ token ++
    be16 (aps.length % 65536) ++ aps.map Char.toNat

/-- The `ASSERT_SSL(cond)` macro: it throws only if `cond` holds AND
`ERR_get_error()` returns a nonzero code, i.e. the OpenSSL error queue
(modelled as the list `errq` of queued codes) is nonempty; with an empty
queue the `while` loop body never runs and control falls through. -/
def assertSSLThrows (cond : Bool) (errq : List Nat) : Bool :=
  cond && (errq.headD 0 != 0)

/-- Outcome of `int ret = SSL_write(...); ASSERT_SSL(ret <= 0); return ret;`
given the return value of `SSL_write` and the OpenSSL error queue:
`Except.error` is the thrown exception, `Except.ok` the normal return. -/
def sslWriteReturn (ret : Int) (errq : List Nat) : Except Nat Int :=
  if assertSSLThrows (decide (ret ≤ 0)) errq then Except.error (errq.headD 0)
  else Except.ok ret

/-- One feedback record as `Apns::FeedBack` fills it. -/
structure ApnsFeedback where
  tm : Nat
  len : Nat
  token : List Char
deriving DecidableEq, Repr

/-- The per-frame decode step of `Apns::FeedBack` on the 38-byte buffer:
`tm` is `memcpy` then `ntohl` (big-endian read); `len` is a 16-bit `memcpy`
(little-endian read) passed through the 32-bit `ntohl` and cast back to
`uint16_t`; the token is `Hex2Str` over `len` bytes starting at offset 6. -/
def decodeFeedbackRecord (frame : List Nat) : ApnsFeedback :=
  let tm := bswap32 (readLE32 (frame.take 4))
  let len := bswap32 (readLE16 ((frame.drop 4).take 2)) % 65536
  { tm := tm, len := len, token := hex2Str (((frame.drop 6)).take len) }

/-- The `while (1)` loop of `Apns::FeedBack`, with the decrypted bytes
buffered in the session (what `SSL_pending` counts) passed explicitly.  The
loop breaks when `sizeof(buf) >= num`, i.e. it only reads while strictly
more than 38 bytes are pending; each pass reads exactly 38 bytes.  The fuel
argument only bounds the iteration count (each pass consumes 38 bytes, so
the buffer length is enough fuel); it never cuts the loop short. -/
def feedBackLoop : Nat → List Nat → List ApnsFeedback
  | 0, _ => []
  | Nat.succ fuel, buffered =>
    if 38 < buffered.length then
      decodeFeedbackRecord (buffered.take 38) :: feedBackLoop fuel (buffered.drop 38)
    else []

/-- `Apns::FeedBack`, as a function of the pending decrypted bytes. -/
def feedBack (buffered : List Nat) : List ApnsFeedback :=
  feedBackLoop buffered.length buffered

/-- The 64-character device-token hex string `"0102...20"` from the spec's
test case, decoding to the bytes 1..32. -/
def c1Token : List Char :=
  "0102030405060708090a0b0c0d0e0f101112131415161718191a1b1c1d1e1f20".data

/-- Unfolding equation for the two-characters-remaining step of the
`Str2Hex` loop. -/
lemma str2HexLoop_cons2 (c1 c2 : Char) (rest : List Char) (n ch : Nat) :
    str2HexLoop (c1 :: c2 :: rest) (n + 1) ch =
      (scanHex2 c1 c2).getD ch :: str2HexLoop rest n ((scanHex2 c1 c2).getD ch) := rfl

/-- The `Str2Hex` loop on an empty input writes nothing, whatever the
remaining capacity. -/
lemma str2HexLoop_nil (szLen ch : Nat) : str2HexLoop [] szLen ch = [] := by
  cases szLen <;> rfl

/-- The `Str2Hex` loop with exhausted capacity writes nothing. -/
lemma str2HexLoop_zero (s : List Char) (ch : Nat) : str2HexLoop s 0 ch = [] := by
  rcases s with _ | ⟨c1, _ | ⟨c2, rest⟩⟩ <;> rfl

/-- On an input of exactly `2 * n` characters, the `Str2Hex` loop writes
`n` bytes and any capacity of at least `n` yields the same bytes. -/
lemma str2HexLoop_spec :
    ∀ (n m ch : Nat) (s : List Char), s.length = 2 * n → n ≤ m →
      str2HexLoop s m ch = str2HexLoop s n ch ∧ (str2HexLoop s n ch).length = n := by
  intro n
  induction n with
  | zero =>
    intro m ch s h _
    have hs : s = [] := List.length_eq_zero.mp (by omega)
    subst hs
    simp [str2HexLoop_nil]
  | succ k ih =>
    intro m ch s h hm
    rcases s with _ | ⟨c1, _ | ⟨c2, rest⟩⟩
    · simp at h
    · simp at h; omega
    · obtain ⟨m', rfl⟩ : ∃ m', m = m' + 1 := ⟨m - 1, by omega⟩
      have hr : rest.length = 2 * k := by
        simp only [List.length_cons] at h; omega
      have hrec := ih m' ((scanHex2 c1 c2).getD ch) rest hr (by omega)
      rw [str2HexLoop_cons2, str2HexLoop_cons2]
      exact ⟨by rw [hrec.1], by simp [hrec.2]⟩

/-- Input characters beyond the `2 * n` consumed by a capacity-`n` run of
the `Str2Hex` loop are never read. -/
lemma str2HexLoop_append :
    ∀ (n ch : Nat) (s extra : List Char), s.length = 2 * n →
      str2HexLoop (s ++ extra) n ch = str2HexLoop s n ch := by
  intro n
  induction n with
  | zero =>
    intro ch s extra h
    have hs : s = [] := List.length_eq_zero.mp (by omega)
    subst hs
    rw [List.nil_append, str2HexLoop_nil, str2HexLoop_zero]
  | succ k ih =>
    intro ch s extra h
    rcases s with _ | ⟨c1, _ | ⟨c2, rest⟩⟩
    · simp at h
    · simp at h; omega
    · have hr : rest.length = 2 * k := by
        simp only [List.length_cons] at h; omega
      have : (c1 :: c2 :: rest) ++ extra = c1 :: c2 :: (rest ++ extra) := rfl
      rw [this, str2HexLoop_cons2, str2HexLoop_cons2,
        ih ((scanHex2 c1 c2).getD ch) rest extra hr]

/-- Running the `FeedBack` loop with any fuel at least the buffer length
gives the same records: the fuel is never what stops the loop. -/
lemma feedBackLoop_congr :
    ∀ (fuel₁ fuel₂ : Nat) (l : List Nat), l.length ≤ fuel₁ → l.length ≤ fuel₂ →
      feedBackLoop fuel₁ l = feedBackLoop fuel₂ l := by
  intro fuel₁
  induction fuel₁ with
  | zero =>
    intro fuel₂ l h1 _
    have hl : l = [] := List.length_eq_zero.mp (by omega)
    subst hl
    cases fuel₂ with
    | zero => rfl
    | succ f => simp [feedBackLoop]
  | succ f ih =>
    intro fuel₂ l h1 h2
    cases fuel₂ with
    | zero =>
      have hl : l = [] := List.length_eq_zero.mp (by omega)
      subst hl
      simp [feedBackLoop]
    | succ f₂ =>
      simp only [feedBackLoop]
      by_cases hlen : 38 < l.length
      · rw [if_pos hlen, if_pos hlen,
          ih f₂ (l.drop 38) (by simp [List.length_drop]; omega)
            (by simp [List.length_drop]; omega)]
      · rw [if_neg hlen, if_neg hlen]

/-- Claim C1 (counterexample): in the frame built for the spec's test
inputs, bytes 5–6 (under either 0-based or 1-based indexing) lie in the
identifier/expiry area and do not hold `0x0020`; at send time 1700000000
they are 0x65 0x55 (0-based) resp. 0x65 0x65 (1-based). -/
theorem c1_counterexample :
    ¬ ((((pushFrame 1700000000 0 c1Token "hello".data 5 "default".data).getD 5 0 = 0 ∧
         (pushFrame 1700000000 0 c1Token "hello".data 5 "default".data).getD 6 0 = 32)) ∨
       (((pushFrame 1700000000 0 c1Token "hello".data 5 "default".data).getD 4 0 = 0 ∧
         (pushFrame 1700000000 0 c1Token "hello".data 5 "default".data).getD 5 0 = 32))) := by
  decide

/-- Claim C1 (amended): for every send time and every initial value of the
uninitialised scan variable, the frame built for device token
`"0102...20"`, body `"hello"`, badge 5, sound `"default"` has first byte 1,
token-length bytes `0x00 0x20` at offsets 9–10 (0-based), and a
payload-length field at offsets 43–44 (the 2 bytes immediately before the
payload) equal to the big-endian byte length of the generated payload
string, which follows it verbatim. -/
theorem c1_frame_fields (now ch0 : Nat) :
    (pushFrame now ch0 c1Token "hello".data 5 "default".data).getD 0 0 = 1 ∧
    (pushFrame now ch0 c1Token "hello".data 5 "default".data).getD 9 0 = 0 ∧
    (pushFrame now ch0 c1Token "hello".data 5 "default".data).getD 10 0 = 32 ∧
    ((pushFrame now ch0 c1Token "hello".data 5 "default".data).drop 43).take 2 =
      be16 (constructAps "hello".data 5 "default".data).length ∧
    (pushFrame now ch0 c1Token "hello".data 5 "default".data).drop 45 =
      (constructAps "hello".data 5 "default".data).map Char.toNat :=
  ⟨rfl, rfl, rfl, rfl, rfl⟩

/-- Claim C2: on the feedback frame with timestamp bytes 00 00 00 0A, token
length 00 02 and token bytes AB CD, the decode step yields timestamp 10 but
a decoded length of 0 and an empty token rendering (the 16-bit length is
passed through the 32-bit `ntohl` and truncated back to 16 bits, which is 0
on the little-endian host); moreover `Hex2Str` on the bytes AB CD renders
`"ff"`, not `"abcd"`. -/
theorem c2_feedback_decode :
    decodeFeedbackRecord ([0, 0, 0, 10, 0, 2, 171, 205] ++ List.replicate 30 0) =
      { tm := 10, len := 0, token := [] } ∧
    hex2Str [171, 205] = ['f', 'f'] := by
  decide

/-- Claim C3: both round-trip directions fail.  `Hex2Str` renders each byte
as a single character (`snprintf` into a 2-byte buffer), sign-extended for
high bytes, so `BytesToHex(HexToBytes("ab")) = "f"`, and 32 bytes of 0x12
come back from the round trip as 16 bytes of 0x11 followed by 16 zero
bytes. -/
theorem c3_roundtrip_fails :
    hex2Str (str2Hex ['a', 'b'] 1 0) = ['f'] ∧ ('f' :: []) ≠ ['a', 'b'] ∧
    str2Hex (hex2Str (List.replicate 32 18)) 32 0 =
      List.replicate 16 17 ++ List.replicate 16 0 ∧
    List.replicate 16 17 ++ List.replicate 16 0 ≠ List.replicate 32 18 := by
  decide

/-- Claim C4: `PushMessage` performs no token validation at all; for the
4-character hex token `"abcd"`, which decodes to 2 bytes instead of 32, the
frame is still produced, its token field silently zero-padded — no
FormatError (nor any other error) exists on this path. -/
theorem c4_no_format_error :
    ((pushFrame 1700000000 0 "abcd".data "hello".data 5 "default".data).drop 11).take 32 =
      171 :: 205 :: List.replicate 30 0 ∧
    (pushFrame 1700000000 0 "abcd".data "hello".data 5 "default".data).length = 45 + 57 := by
  decide

/-- Claim C5 (counterexample): with exactly one full 38-byte frame pending,
`FeedBack` returns no records — the loop breaks when `sizeof(buf) >= num`,
so it reads only while strictly more than 38 bytes are pending. -/
theorem c5_exact_frame_empty :
    feedBack (List.replicate 38 0) = [] ∧ (List.replicate 38 (0 : Nat)).length = 38 := by
  decide

/-- Claim C5 (amended): `FeedBack` returns an empty sequence exactly when
at most 38 bytes (i.e. one frame or less) are pending, and decodes a
38-byte frame and continues whenever strictly more than 38 bytes are
pending. -/
theorem c5_feedback_threshold (buffered : List Nat) :
    (feedBack buffered = [] ↔ buffered.length ≤ 38) ∧
    (38 < buffered.length →
      feedBack buffered =
        decodeFeedbackRecord (buffered.take 38) :: feedBack (buffered.drop 38)) := by
  constructor
  · constructor
    · intro h
      by_contra hgt
      push_neg at hgt
      unfold feedBack at h
      rcases hl : buffered.length with _ | n
      · omega
      · rw [hl] at h
        simp only [feedBackLoop] at h
        rw [if_pos hgt] at h
        exact List.cons_ne_nil _ _ h
    · intro h
      unfold feedBack
      rcases hl : buffered.length with _ | n
      · rfl
      · simp only [feedBackLoop]
        rw [if_neg (by omega)]
  · intro h
    unfold feedBack
    rcases hl : buffered.length with _ | n
    · omega
    · simp only [feedBackLoop]
      rw [if_pos h]
      congr 1
      exact feedBackLoop_congr n (buffered.drop 38).length (buffered.drop 38)
        (by simp [List.length_drop]; omega) le_rfl

/-- Witness for C5's amended theorem at a 39-byte buffer. -/
theorem c5_feedback_threshold_witness :
    feedBack (List.replicate 39 0) =
      decodeFeedbackRecord ((List.replicate 39 (0 : Nat)).take 38) ::
        feedBack ((List.replicate 39 (0 : Nat)).drop 38) :=
  (c5_feedback_threshold (List.replicate 39 0)).2 (by decide)

/-- Claim C6: the identifier is copied into the frame without `htonl`, so on
the little-endian host its wire bytes at offsets 1–4 are the little-endian
rendering, not network byte order: for identifier 1700000000 (0x6553F100)
the wire holds 00 F1 53 65, while big-endian would be 65 53 F1 00. -/
theorem c6_identifier_not_network_order :
    ((pushFrame 1700000000 0 c1Token "hello".data 5 "default".data).drop 1).take 4 =
      [0, 241, 83, 101] ∧
    be32 1700000000 = [101, 83, 241, 0] ∧
    ([0, 241, 83, 101] : List Nat) ≠ [101, 83, 241, 0] := by
  decide

/-- Claim C7: when `SSL_write` returns 0 but the OpenSSL error queue is
empty, `ASSERT_SSL`'s `while` loop never runs, so no exception is thrown
and `PushMessage` returns the failed count 0 as a normal value. -/
theorem c7_silent_write_failure :
    sslWriteReturn 0 [] = Except.ok 0 ∧ assertSSLThrows true [] = false :=
  ⟨rfl, rfl⟩

set_option maxRecDepth 4000 in
/-- Claim C8 (counterexample): `ConstructAps` formats through `snprintf`
into a 256-byte buffer, which silently truncates: a 250-character body
whose full substitution would be 302 bytes yields a 255-byte payload, not
the exact substitution. -/
theorem c8_truncation :
    constructAps (List.replicate 250 'a') 5 "default".data ≠
      apsFull (List.replicate 250 'a') 5 "default".data ∧
    (constructAps (List.replicate 250 'a') 5 "default".data).length = 255 ∧
    (apsFull (List.replicate 250 'a') 5 "default".data).length = 302 := by
  decide

/-- Claim C8 (amended): the payload is the substitution into the fixed
template truncated to at most 255 bytes by `snprintf`; whenever the full
substitution fits in 255 bytes it is produced exactly. -/
theorem c8_payload_exact (body : List Char) (badge : Int) (sound : List Char)
    (h : (apsFull body badge sound).length ≤ 255) :
    constructAps body badge sound = apsFull body badge sound := by
  unfold constructAps
  exact List.take_of_length_le h

/-- Witness for C8's amended theorem at the spec's test inputs. -/
theorem c8_payload_exact_witness :
    (apsFull "hello".data 5 "default".data).length ≤ 255 ∧
    constructAps "hello".data 5 "default".data = apsFull "hello".data 5 "default".data :=
  ⟨by decide, c8_payload_exact "hello".data 5 "default".data (by decide)⟩

/-- Claim C9: for every send time and all other inputs, the expiry field
(offsets 5–8) of the frame holds, in network byte order, the identifier
value plus 86400 seconds computed in unsigned 32-bit arithmetic. -/
theorem c9_expiry_is_id_plus_day (now ch0 : Nat) (tok body sound : List Char)
    (badge : Int) :
    ((pushFrame now ch0 tok body badge sound).drop 5).take 4 =
      be32 ((now + 86400) % 4294967296) := by
  show be32 ((now % 4294967296 + 86400) % 4294967296) = _
  rw [Nat.mod_add_mod]

/-- Claim C10: decoding a device-token hex string of `2 * n` characters
(`n ≤ 32`) into the 32-byte token buffer yields the `n` decoded bytes
followed by `32 - n` zero bytes (the `memset` padding), and characters
beyond the 64th are silently ignored; no error is raised on either path
(the decoder is total). -/
theorem c10_token_padding (s extra : List Char) (n ch0 : Nat)
    (h1 : s.length = 2 * n) (h2 : n ≤ 32) :
    str2Hex s 32 ch0 = str2Hex s n ch0 ++ List.replicate (32 - n) 0 ∧
    (n = 32 → str2Hex (s ++ extra) 32 ch0 = str2Hex s 32 ch0) := by
  obtain ⟨heq, hlen⟩ := str2HexLoop_spec n 32 ch0 s h1 h2
  constructor
  · simp only [str2Hex]
    rw [heq, hlen]
    simp
  · intro h32
    subst h32
    simp only [str2Hex]
    rw [str2HexLoop_append 32 ch0 s extra h1]

/-- Witness for C10's theorem at the 2-character token `"ab"`. -/
theorem c10_token_padding_witness :
    str2Hex ['a', 'b'] 32 0 = str2Hex ['a', 'b'] 1 0 ++ List.replicate 31 0 ∧
    ((1 : Nat) = 32 →
      str2Hex (['a', 'b'] ++ ['f', 'f']) 32 0 = str2Hex ['a', 'b'] 32 0) :=
  c10_token_padding ['a', 'b'] ['f', 'f'] 1 0 (by decide) (by decide)

end Apns
